import Mathlib

/-!
Shallow embedding of `src/formalchemy/forms.py` (classes `FieldSet` and
`Field`) together with the external collaborators it uses, and proofs of the
specification claims about attribute selection and field rendering.

Python strings are modelled as Lean `String`, Python lists as Lean `List`,
Python `None`-able keyword options as `Option`, and raised exceptions as
`Except FormError`.  The modules `base.py`, `fields.py`, `utils.py` and
`webhelpers` are not part of the sources; every definition taken from them is
marked `Modelled from the spec:` and follows the specification's words.
Object identity (Python `is` / default `==` on wrapper objects, which the
spec's data-model section declares to be the equality used for the
include/exclude/options list operations) is modelled by structural equality
of `AttributeWrapper` values, with a `uid` field standing for the object id
so that distinct objects with otherwise equal attributes stay distinct.
-/

/-- Modelled from the spec: the widget tag identifying which renderer draws an
attribute (`renderKind`, e.g. hidden/text/date/...).  The source only tests
`render_as == fields.HiddenField`. -/
inductive RenderKind where
  | hidden
  | text
  | date
  | time
  | password
deriving DecidableEq, Repr

/-- Modelled from the spec: the slice of a SQLAlchemy column that
`forms.py` reads (`column.primary_key`, `column.nullable`, and the column
object's identity, used as the key of the `error`/`doc` maps and as the value
compared against the `focus` option). -/
structure Column where
  cid : Nat
  primary_key : Bool
  nullable : Bool
deriving DecidableEq, Repr

/-- Modelled from the spec: `fields.AttributeWrapper` (module `fields.py` is
not in the sources) — the handle binding one model attribute to its metadata,
bound model and session.  `uid` stands for Python object identity; `inputHtml`
stands for the input fragment the wrapper's widget produces when the source
calls `wrapper.render()`. -/
structure AttributeWrapper where
  uid : Nat
  name : String
  column : Column
  is_raw_foreign_key : Bool
  render_as : RenderKind
  inputHtml : String
  model : Nat
  session : Option Nat
deriving DecidableEq, Repr

/-- Modelled from the spec: `wrapper.nullable` (read at `forms.py:212`)
delegates to the wrapped column's nullability. -/
def AttributeWrapper.nullable (w : AttributeWrapper) : Bool :=
  w.column.nullable

/-- An element of one of the `include`/`exclude`/`options` keyword lists.
Python lets callers pass arbitrary values there; `other` carries the string
representation of a non-`AttributeWrapper` value. -/
inductive FilterItem where
  | wrapper (w : AttributeWrapper)
  | other (repr : String)
deriving DecidableEq, Repr

/-- The value of the `focus` render option: a boolean or a column
(`forms.py:237` tests `focus == self.wrapper.column or focus is True`). -/
inductive FocusOpt where
  | fBool (b : Bool)
  | fCol (c : Column)
deriving DecidableEq, Repr

/-- The exceptions raised by `FieldSet.get_attrs` (`forms.py:109,115`). -/
inductive FormError where
  | conflictingFilter
  | invalidFilterType (param : String) (value : String)
deriving DecidableEq, Repr

/-- The exception message, as formatted by the source
(`forms.py:109` and `forms.py:115`). -/
def FormError.message : FormError → String
  | .conflictingFilter => "Specify at most one of include, exclude"
  | .invalidFilterType param value =>
      param ++ " parameter should be an iterable of AttributeWrapper objects; was " ++ value

/-- A keyword-option set, as read by `kwargs.get`/`opts.get` in the source:
every option is absent (`none`) or supplied.  One record serves both
`get_attrs` (pk/exclude/include/options) and `Field.render` (the rest),
mirroring how `FieldSet.render` passes the single merged dict to both. -/
structure Opts where
  pk : Option Bool := none
  excludeL : Option (List FilterItem) := none
  includeL : Option (List FilterItem) := none
  optionsL : Option (List FilterItem) := none
  make_label : Option Bool := none
  date : Option String := none
  time : Option String := none
  datetime : Option String := none
  prettify : Option (String → String) := none
  aliasMap : Option (List (String × String)) := none
  focus : Option FocusOpt := none
  error : Option (List (Column × String)) := none
  doc : Option (List (Column × String)) := none
  cls_req : Option String := none
  cls_opt : Option String := none
  cls_err : Option String := none
  span_doc : Option String := none
  span_err : Option String := none

/-- Modelled from the spec: `utils.validate_columns` (module `utils.py` is not
in the sources) checks that every element of the iterable is an
`AttributeWrapper`; `get_attrs` turns its failure into a `ValueError`. -/
def validateColumns (l : List FilterItem) : Bool :=
  l.all fun i => match i with
    | .wrapper _ => true
    | .other _ => false

/-- Modelled from the spec: the string representation interpolated into the
`InvalidFilterTypeError` message (`'... was %s' % (lst, eval(lst))`). -/
def filterItemStr : FilterItem → String
  | .wrapper w => "<AttributeWrapper " ++ w.name ++ ">"
  | .other s => s

/-- String representation of a whole filter list, for the error message. -/
def reprFilterList (l : List FilterItem) : String :=
  "[" ++ String.intercalate ", " (l.map filterItemStr) ++ "]"

/-- The wrappers of a validated filter list. -/
def extractWrappers (l : List FilterItem) : List AttributeWrapper :=
  l.filterMap fun i => match i with
    | .wrapper w => some w
    | .other _ => none

/-- Python `dict` built by `options_dict.update([(wrapper, wrapper) ...])`
followed by `options_dict[wrapper]`: lookup by wrapper equality, later
entries overriding earlier ones (`forms.py:127-128`). -/
def dictLookup : List (AttributeWrapper × AttributeWrapper) → AttributeWrapper →
    Option AttributeWrapper
  | [], _ => none
  | (a, b) :: rest, k =>
      match dictLookup rest k with
      | some v => some v
      | none => if a = k then some b else none

/-- The state of a `FieldSet` (`forms.py:16`): the bound model and session
(held by `base.BaseModelRender`, not in the sources, modelled from the spec's
FormRenderer state), the owned wrappers (stored in `self.__dict__` by
`__init__`), the persistent configuration set by `configure`, and the
model-declared `FormAlchemy` defaults. -/
structure FieldSet where
  model : Nat
  session : Option Nat
  wrappers : List AttributeWrapper
  config : Opts
  modelDefaults : Opts

/-- Key-wise merge of two option layers, the first layer winning.
Modelled from the spec: `base.new_options` (not in the sources) resolves each
named option independently, higher layer first. -/
def optsMerge (a b : Opts) : Opts where
  pk := a.pk <|> b.pk
  excludeL := a.excludeL <|> b.excludeL
  includeL := a.includeL <|> b.includeL
  optionsL := a.optionsL <|> b.optionsL
  make_label := a.make_label <|> b.make_label
  date := a.date <|> b.date
  time := a.time <|> b.time
  datetime := a.datetime <|> b.datetime
  prettify := a.prettify <|> b.prettify
  aliasMap := a.aliasMap <|> b.aliasMap
  focus := a.focus <|> b.focus
  error := a.error <|> b.error
  doc := a.doc <|> b.doc
  cls_req := a.cls_req <|> b.cls_req
  cls_opt := a.cls_opt <|> b.cls_opt
  cls_err := a.cls_err <|> b.cls_err
  span_doc := a.span_doc <|> b.span_doc
  span_err := a.span_err <|> b.span_err

/-- Modelled from the spec: `self.new_options(**options)` — call-time
overrides win over the persistent `configure` options, which win over the
model-declared defaults (hard-coded defaults are applied by the `opts.get`
calls at the use sites, as in the source). -/
def FieldSet.effOpts (fs : FieldSet) (call : Opts) : Opts :=
  optsMerge call (optsMerge fs.config fs.modelDefaults)

/-- Sorting a wrapper list by `name` ascending, as
`wrappers.sort(key=lambda wrapper: wrapper.name)` (`forms.py:87`). -/
def strLeB : List Char → List Char → Bool
  | [], _ => true
  | _ :: _, [] => false
  | a :: as, b :: bs =>
      if a.val.toNat < b.val.toNat then true
      else if b.val.toNat < a.val.toNat then false
      else strLeB as bs

/-- Code-point lexicographic `≤` on strings, the order Python's
`list.sort(key=...)` uses on `str` keys. -/
def strLe (a b : String) : Bool :=
  strLeB a.data b.data

def insertByName (w : AttributeWrapper) : List AttributeWrapper → List AttributeWrapper
  | [] => [w]
  | x :: xs => if strLe w.name x.name then w :: x :: xs else x :: insertByName w xs

def sortByName (l : List AttributeWrapper) : List AttributeWrapper :=
  l.foldr insertByName []

/-- `FieldSet._raw_attrs` (`forms.py:83-88`): all owned wrappers, sorted by
name for reproducibility. -/
def FieldSet.raw_attrs (fs : FieldSet) : List AttributeWrapper :=
  sortByName fs.wrappers

/-- `FieldSet.get_attrs()` called with no keyword arguments (as done by
`get_pks` at `forms.py:77`): `pk=True`, empty `include`/`exclude`/`options`,
so no validation can fail and the ignore set is exactly the raw foreign
keys. -/
def FieldSet.get_attrs_default (fs : FieldSet) : List AttributeWrapper :=
  let ignore := fs.raw_attrs.filter fun w => w.is_raw_foreign_key
  fs.raw_attrs.filter fun a => decide (a ∉ ignore)

/-- `FieldSet.get_pks` (`forms.py:75-77`): the primary-key wrappers among the
default selection. -/
def FieldSet.get_pks (fs : FieldSet) : List AttributeWrapper :=
  fs.get_attrs_default.filter fun w => w.column.primary_key

/-- `FieldSet.get_attrs` (`forms.py:90-135`).  Reads `pk`, `exclude`,
`include`, `options` with their defaults; raises on conflicting or ill-typed
filters; when `include` is empty builds the ignore list from `exclude`, the
primary keys (when `pk` is false) and the raw foreign keys; finally applies
the `options` substitution dict. -/
def FieldSet.get_attrs (fs : FieldSet) (opts : Opts) :
    Except FormError (List AttributeWrapper) :=
  let pk := opts.pk.getD true
  let excl := opts.excludeL.getD []
  let incl := opts.includeL.getD []
  let optl := opts.optionsL.getD []
  if incl ≠ [] ∧ excl ≠ [] then
    .error .conflictingFilter
  else if ¬ validateColumns incl then
    .error (.invalidFilterType "include" (reprFilterList incl))
  else if ¬ validateColumns excl then
    .error (.invalidFilterType "exclude" (reprFilterList excl))
  else if ¬ validateColumns optl then
    .error (.invalidFilterType "options" (reprFilterList optl))
  else
    let selected :=
      if incl = [] then
        let ignore := extractWrappers excl
          ++ (if ¬ pk then fs.get_pks else [])
          ++ fs.raw_attrs.filter (fun w => w.is_raw_foreign_key)
        fs.raw_attrs.filter fun a => decide (a ∉ ignore)
      else extractWrappers incl
    let optionsDict := (extractWrappers optl).map fun w => (w, w)
    .ok (selected.map fun w =>
      match dictLookup optionsDict w with
      | some v => v
      | none => w)

/-- Modelled from the spec: `h.content_tag(tag, content, class_=cls)` from the
external markup-fragment layer (`webhelpers`). -/
def content_tag (tag content cls : String) : String :=
  "<" ++ (tag ++ " class=\"" ++ cls ++ "\">" ++ content ++ "</" ++ tag ++ ">")

/-- Modelled from the spec: `h.javascript_tag(script)` from the external
markup-fragment layer. -/
def javascript_tag (script : String) : String :=
  "<" ++ ("script type=\"text/javascript\">" ++ script ++ "</script>")

/-- Modelled from the spec: `utils.wrap(start, text, end)` (module `utils.py`
is not in the sources) joins the three parts with line breaks, wrapping the
text in a block container. -/
def wrap (first text last : String) : String :=
  first ++ "\n" ++ text ++ "\n" ++ last

/-- First-match association-list lookup, modelling Python `dict.get` /
`key in dict` for the `error`/`doc` maps keyed by column. -/
def lookupCol : List (Column × String) → Column → Option String
  | [], _ => none
  | (k, v) :: rest, c => if k = c then some v else lookupCol rest c

/-- First-match association-list lookup for the string-keyed `alias` map. -/
def lookupStr : List (String × String) → String → Option String
  | [], _ => none
  | (k, v) :: rest, c => if k = c then some v else lookupStr rest c

/-- Python `field.startswith("\n")` (`forms.py:229`). -/
def startswithNL (s : String) : Bool :=
  s.data.head? == some '\n'

/-- Python `field[1:]` (`forms.py:230`), dropping the first character. -/
def dropFirst (s : String) : String :=
  String.mk (s.data.drop 1)

/-- Does this wrapper satisfy the focus condition of `forms.py:237`,
`focus == self.wrapper.column or focus is True`? -/
def focusMatches (f : FocusOpt) (c : Column) : Bool :=
  match f with
  | .fBool b => b
  | .fCol c2 => decide (c2 = c)

/-- Modelled from the spec: the `fields.Label` fragment built at
`forms.py:209-216` — text is the alias for the wrapper's name when present,
else the prettified name (prettifier from the options, identity by default);
CSS class is the optional-field class when the column is nullable, else the
required-field class. -/
def labelHtml (w : AttributeWrapper) (opts : Opts) : String :=
  let amap := opts.aliasMap.getD []
  let text :=
    match lookupStr amap w.name with
    | some a => a
    | none =>
        match opts.prettify with
        | some f => f w.name
        | none => w.name
  let cls := if w.nullable then opts.cls_opt.getD "field_opt" else opts.cls_req.getD "field_req"
  "<" ++ ("label class=\"" ++ cls ++ "\">" ++ text ++ "</label>")

/-- The focus script appended at `forms.py:238`. -/
def focusScript (w : AttributeWrapper) : String :=
  javascript_tag ("document.getElementById(\"" ++ w.name ++ "\").focus();")

/-- `Field.render` (`forms.py:176-241`).  The `Field` instance state that the
method reads or writes is passed explicitly: `w` is the wrapper set by
`set_attr`, `make_label_inst` is the `_make_label` flag (constructor default
`True`), `focus_rendered` is the mutable `_focus_rendered` flag; the returned
pair is (rendered markup, `_focus_rendered` after the call).  The date/time
format options are read by the source but never passed to the widget
(`wrapper.render()` takes no arguments), so they do not appear here. -/
def Field.render (w : AttributeWrapper) (make_label_inst : Bool)
    (focus_rendered : Bool) (opts : Opts) : String × Bool :=
  let make_label := opts.make_label.getD make_label_inst
  let focus := opts.focus.getD (.fBool true)
  let errors := opts.error.getD []
  let docs := opts.doc.getD []
  let cls_span_doc := opts.span_doc.getD "span_doc"
  let cls_span_err := opts.span_err.getD "span_err"
  if w.render_as = RenderKind.hidden then
    (w.inputHtml, focus_rendered)
  else
    let field := ""
    let field := if make_label then field ++ labelHtml w opts else field
    let field := field ++ ("\n" ++ w.inputHtml)
    let field :=
      match lookupCol errors w.column with
      | some msg => field ++ ("\n" ++ content_tag "span" msg cls_span_err)
      | none => field
    let field :=
      match lookupCol docs w.column with
      | some txt => field ++ ("\n" ++ content_tag "span" txt cls_span_doc)
      | none => field
    let field := if startswithNL field then dropFirst field else field
    let field := if make_label_inst then wrap "<div>" field "</div>" else field
    if focusMatches focus w.column && !focus_rendered then
      (field ++ ("\n" ++ focusScript w), true)
    else
      (field, focus_rendered)

/-- The attribute loop of `FieldSet.render` (`forms.py:149-152`): one `Field`
renderer is reused across the selected wrappers, threading its
`_focus_rendered` flag; returns the fragments and the final flag. -/
def renderLoop (opts : Opts) (make_label_inst : Bool) :
    List AttributeWrapper → Bool → List String × Bool
  | [], flag => ([], flag)
  | a :: rest, flag =>
      let p := Field.render a make_label_inst flag opts
      let r := renderLoop opts make_label_inst rest p.2
      (p.1 :: r.1, r.2)

/-- Which loop iterations append the focus script: `true` at position `i` iff
the `_focus_rendered` flag flips from false to true while rendering field
`i`. -/
def focusFlags (opts : Opts) (make_label_inst : Bool) :
    List AttributeWrapper → Bool → List Bool
  | [], _ => []
  | a :: rest, flag =>
      let flag2 := (Field.render a make_label_inst flag opts).2
      (flag2 && !flag) :: focusFlags opts make_label_inst rest flag2

/-- `FieldSet.render` (`forms.py:137-154`): merge the options, select the
attributes, render each selected wrapper with a freshly constructed `Field`
(so `_focus_rendered` starts `false` and `_make_label` is the constructor
default `true`), and join the fragments with newlines. -/
def FieldSet.render (fs : FieldSet) (options : Opts) : Except FormError String :=
  let opts := fs.effOpts options
  match fs.get_attrs opts with
  | .error e => .error e
  | .ok attrs => .ok (String.intercalate "\n" (renderLoop opts true attrs false).1)

/-- Two successive calls of `FieldSet.render` on the same bound fieldset with
the same call options (`render` does not mutate the fieldset: the merged
options are not persisted and the `Field` renderer is a fresh local). -/
def FieldSet.renderTwice (fs : FieldSet) (options : Opts) :
    Except FormError (String × String) :=
  match fs.render options with
  | .error e => .error e
  | .ok s1 =>
      match fs.render options with
      | .error e => .error e
      | .ok s2 => .ok (s1, s2)

/-- `FieldSet.bind` (`forms.py:70-73`): the inherited bind updates the
fieldset's own model and session (base class not in the sources, modelled
from the spec's FormRenderer state), then every owned wrapper's bound-model
reference is set to the new model.  Nothing else is touched. -/
def FieldSet.bind (fs : FieldSet) (model : Nat) (session : Option Nat) : FieldSet :=
  { fs with
    model := model
    session := session
    wrappers := fs.wrappers.map fun w => { w with model := model } }

/-- Wrap the concatenated parts in the div container iff the flag is set
(`forms.py:232-234`). -/
def wrapIf (b : Bool) (s : String) : String :=
  if b then wrap "<div>" s "</div>" else s

/-- The error-span suffix of a rendered field: present iff the wrapper's
column is a key of the `error` map (`forms.py:222-224`). -/
def errSuffix (w : AttributeWrapper) (opts : Opts) : String :=
  match lookupCol (opts.error.getD []) w.column with
  | some msg => "\n" ++ content_tag "span" msg (opts.span_err.getD "span_err")
  | none => ""

/-- The doc-span suffix of a rendered field: present iff the wrapper's column
is a key of the `doc` map (`forms.py:225-227`). -/
def docSuffix (w : AttributeWrapper) (opts : Opts) : String :=
  match lookupCol (opts.doc.getD []) w.column with
  | some txt => "\n" ++ content_tag "span" txt (opts.span_doc.getD "span_doc")
  | none => ""

/-- The focus-script suffix of a rendered field: present iff the focus
condition holds and the renderer's flag is still unset (`forms.py:236-239`). -/
def focusSuffix (w : AttributeWrapper) (opts : Opts) (flag : Bool) : String :=
  if focusMatches (opts.focus.getD (.fBool true)) w.column && !flag then
    "\n" ++ focusScript w
  else ""

/-- The label/input/error/doc body of a non-hidden field, before wrapping:
label (joined by a line break) iff the effective `make_label` is true, then
the input fragment, then the optional error and doc spans. -/
def fieldCore (w : AttributeWrapper) (make_label_eff : Bool) (opts : Opts) : String :=
  (if make_label_eff then labelHtml w opts ++ ("\n" ++ w.inputHtml) else w.inputHtml)
    ++ errSuffix w opts ++ docSuffix w opts

/-- Joining markup parts with line breaks, as the fixed
label/input/error/doc composition order does. -/
def joinNL : List String → String
  | [] => ""
  | [s] => s
  | s :: rest => s ++ ("\n" ++ joinNL rest)

/-- The ordered fragment list of a non-hidden rendered field: the label (iff
the effective `make_label` is true), then the input fragment, then the error
span iff the wrapper's column is a key of the `error` map, then the doc span
iff it is a key of the `doc` map. -/
def fieldParts (w : AttributeWrapper) (make_label_eff : Bool) (opts : Opts) :
    List String :=
  (if make_label_eff then [labelHtml w opts] else [])
    ++ [w.inputHtml]
    ++ ((lookupCol (opts.error.getD []) w.column).map fun msg =>
          content_tag "span" msg (opts.span_err.getD "span_err")).toList
    ++ ((lookupCol (opts.doc.getD []) w.column).map fun txt =>
          content_tag "span" txt (opts.span_doc.getD "span_doc")).toList

/-- Mark the first `true` of a boolean list, forcing everything after it to
`false`. -/
def markFirst : List Bool → List Bool
  | [] => []
  | b :: rest => if b then true :: rest.map (fun _ => false) else false :: markFirst rest

def wC1 : AttributeWrapper :=
  ⟨1, "name", ⟨11, false, true⟩, false, .text, "<input id=\"name\" />", 0, none⟩

def fsC1 : FieldSet := ⟨0, none, [], {}, {}⟩

def optsC1 : Opts := { includeL := some [.wrapper wC1] }

def wId : AttributeWrapper :=
  ⟨2, "id", ⟨1, true, false⟩, false, .text, "<input id=\"id\" />", 0, none⟩

def wName : AttributeWrapper :=
  ⟨3, "name", ⟨2, false, false⟩, false, .text, "<input id=\"name\" />", 0, none⟩

def wBio : AttributeWrapper :=
  ⟨4, "bio", ⟨3, false, true⟩, false, .text, "<input id=\"bio\" />", 0, none⟩

def wSecret : AttributeWrapper :=
  ⟨5, "secret_id", ⟨4, false, true⟩, true, .text, "<input id=\"secret_id\" />", 0, none⟩

def fsC2 : FieldSet := ⟨0, none, [wName, wId, wBio, wSecret], {}, {}⟩

def optsC2 : Opts := { pk := some false }

def wHid : AttributeWrapper :=
  ⟨21, "token", ⟨21, false, true⟩, false, .hidden,
    "<input type=\"hidden\" id=\"token\" />", 0, none⟩

def wTxt : AttributeWrapper :=
  ⟨22, "zname", ⟨22, false, true⟩, false, .text, "<input id=\"zname\" />", 0, none⟩

def fsC3 : FieldSet := ⟨0, none, [wHid, wTxt], {}, {}⟩

def optsC3 : Opts := {}

def wC4 : AttributeWrapper :=
  ⟨41, "secret", ⟨41, false, true⟩, false, .hidden,
    "<input type=\"hidden\" id=\"secret\" />", 0, none⟩

def optsC4 : Opts :=
  { make_label := some true
    error := some [(⟨41, false, true⟩, "boom")]
    doc := some [(⟨41, false, true⟩, "read me")]
    focus := some (.fBool true) }

def wC5 : AttributeWrapper :=
  ⟨51, "a", ⟨51, false, true⟩, false, .text, "<input id=\"a\" />", 0, none⟩

def fsC5 : FieldSet := ⟨0, none, [wC5], {}, {}⟩

def optsC5 : Opts :=
  { includeL := some [.wrapper wC5], excludeL := some [.wrapper wC5] }

def wC6 : AttributeWrapper :=
  ⟨61, "bio", ⟨61, false, true⟩, false, .text, "<input id=\"bio\" />", 0, none⟩

def optsC6 : Opts := { make_label := some false, focus := some (.fBool false) }

def wC7 : AttributeWrapper :=
  ⟨71, "a", ⟨71, false, true⟩, false, .text, "<input id=\"a\" />", 3, some 1⟩

def fsC7 : FieldSet := ⟨3, some 1, [wC7], {}, {}⟩

def fsC8 : FieldSet := ⟨0, none, [], {}, {}⟩

def optsC8bad : Opts :=
  { includeL := some [.other "1"], excludeL := some [.other "2"] }

def optsC8w : Opts := { optionsL := some [.other "3"] }

def wC9 : AttributeWrapper :=
  ⟨91, "age", ⟨91, false, false⟩, false, .text, "<input id=\"age\" />", 0, none⟩

def optsC9 : Opts :=
  { error := some [(⟨91, false, false⟩, "required")], focus := some (.fBool false) }

def wC10 : AttributeWrapper :=
  ⟨101, "a", ⟨101, false, true⟩, false, .text, "<input id=\"a\" />", 0, none⟩

def fsC10 : FieldSet := ⟨0, none, [wC10], {}, {}⟩

def optsC10 : Opts := {}

def outC10 : String :=
  "<div>\n<label class=\"field_opt\">a</label>\n<input id=\"a\" />\n</div>\n<script type=\"text/javascript\">document.getElementById(\"a\").focus();</script>"


/-- Sanity link between the general `get_attrs` and its no-argument
specialisation used by `get_pks`: with an all-default option set the call
succeeds and returns `get_attrs_default`. -/
theorem get_attrs_defaultOpts (fs : FieldSet) :
    fs.get_attrs {} = .ok fs.get_attrs_default := by
  simp [FieldSet.get_attrs, FieldSet.get_attrs_default, validateColumns,
    extractWrappers, dictLookup]

/-- A lookup in a dict whose entries are all `(x, x)` returns the key it was
given (wrapper equality is identity, so the substitution at
`forms.py:130-134` maps every wrapper to itself). -/
theorem dictLookup_self (l : List AttributeWrapper) (k v : AttributeWrapper)
    (h : dictLookup (l.map fun w => (w, w)) k = some v) : v = k := by
  induction l with
  | nil => simp [dictLookup] at h
  | cons a rest ih =>
      simp only [List.map_cons, dictLookup] at h
      cases hr : dictLookup (rest.map fun w => (w, w)) k with
      | some u =>
          rw [hr] at h
          cases h
          exact ih hr
      | none =>
          rw [hr] at h
          by_cases ha : a = k
          · rw [if_pos ha] at h
            cases h
            exact ha
          · rw [if_neg ha] at h
            cases h

/-- The `options` substitution is the identity on every list. -/
theorem optionsSubst_id (optw : List AttributeWrapper) (l : List AttributeWrapper) :
    (l.map fun w =>
      match dictLookup (optw.map fun x => (x, x)) w with
      | some v => v
      | none => w) = l := by
  induction l with
  | nil => rfl
  | cons a rest ih =>
      simp only [List.map_cons, ih]
      cases h : dictLookup (optw.map fun x => (x, x)) a with
      | some v => simp [dictLookup_self optw a v h]
      | none => simp

theorem data_empty : ("" : String).data = [] := rfl

theorem data_nl : ("\n" : String).data = ['\n'] := rfl

theorem data_lt : ("<" : String).data = ['<'] := rfl

theorem data_mk (l : List Char) : (String.mk l).data = l := rfl

/-- A string starting with a literal `<` does not start with a newline. -/
theorem startswithNL_lt (s : String) : startswithNL ("<" ++ s) = false := by
  have hd : ("<" ++ s).data = '<' :: s.data := by
    rw [String.data_append, data_lt]
    rfl
  rw [startswithNL, hd]
  rfl

/-- A string starting with a literal newline starts with a newline. -/
theorem startswithNL_nl (s : String) : startswithNL ("\n" ++ s) = true := by
  have hd : ("\n" ++ s).data = '\n' :: s.data := by
    rw [String.data_append, data_nl]
    rfl
  rw [startswithNL, hd]
  rfl

/-- Dropping the first character of a string starting with a literal newline
removes exactly that newline. -/
theorem dropFirst_nl (s : String) : dropFirst ("\n" ++ s) = s := by
  apply String.ext
  rw [dropFirst, data_mk, String.data_append, data_nl]
  rfl

/-- Characterisation of `Field.render` on non-hidden wrappers: the output is
the (conditionally wrapped) label/input/error/doc body followed by the
conditional focus script, and the new `_focus_rendered` flag is the old one
or-ed with the focus condition. -/
theorem Field.render_eq (w : AttributeWrapper) (ml flag : Bool) (opts : Opts)
    (h : ¬ w.render_as = RenderKind.hidden) :
    Field.render w ml flag opts =
      (wrapIf ml (fieldCore w (opts.make_label.getD ml) opts) ++ focusSuffix w opts flag,
        flag || focusMatches (opts.focus.getD (.fBool true)) w.column) := by
  cases hml : opts.make_label.getD ml <;>
    cases he : lookupCol (opts.error.getD []) w.column <;>
      cases hd : lookupCol (opts.doc.getD []) w.column <;>
        cases hcrit : focusMatches (opts.focus.getD (.fBool true)) w.column <;>
          cases flag <;>
            simp [Field.render, h, hml, he, hd, hcrit, wrapIf, fieldCore,
              errSuffix, docSuffix, focusSuffix, wrap, labelHtml,
              startswithNL_lt, startswithNL_nl, dropFirst_nl,
              String.empty_append, String.append_empty, String.append_assoc,
              Prod.mk.injEq]

/-- C6 (amended): for a non-hidden wrapper the label is included exactly when
the effective `make_label` option (call-time override winning over the
renderer-instance flag) is true, but the block container is controlled by
the renderer's own `_make_label` flag, not by the effective option:
`forms.py:233` tests `self.get_make_label()` while `forms.py:209` tests the
merged option.  In particular, with the effective option false the label is
omitted yet the div is still added whenever the instance flag is true. -/
theorem c6_label_and_wrapping (w : AttributeWrapper) (ml flag : Bool) (opts : Opts)
    (h : ¬ w.render_as = RenderKind.hidden) :
    (opts.make_label.getD ml = true →
        (Field.render w ml flag opts).1 =
          wrapIf ml (labelHtml w opts ++ ("\n" ++ w.inputHtml)
              ++ errSuffix w opts ++ docSuffix w opts)
            ++ focusSuffix w opts flag) ∧
      (opts.make_label.getD ml = false →
        (Field.render w ml flag opts).1 =
          wrapIf ml (w.inputHtml ++ errSuffix w opts ++ docSuffix w opts)
            ++ focusSuffix w opts flag) := by
  constructor <;> intro hml <;> rw [Field.render_eq w ml flag opts h] <;>
    simp [fieldCore, hml, String.append_assoc]

/-- `strLeB` is total. -/
theorem strLeB_total (as bs : List Char) : strLeB as bs = true ∨ strLeB bs as = true := by
  induction as generalizing bs with
  | nil => left; rfl
  | cons a as ih =>
      cases bs with
      | nil => right; rfl
      | cons b bs =>
          rcases Nat.lt_trichotomy a.val.toNat b.val.toNat with h | h | h
          · left; simp [strLeB, h]
          · rcases ih bs with hl | hl
            · left; simp [strLeB, h, hl]
            · right; simp [strLeB, h.symm, hl]
          · right; simp [strLeB, h]

/-- `strLeB` is transitive. -/
theorem strLeB_trans (as bs cs : List Char) (h1 : strLeB as bs = true)
    (h2 : strLeB bs cs = true) : strLeB as cs = true := by
  induction as generalizing bs cs with
  | nil => rfl
  | cons a as ih =>
      cases bs with
      | nil => simp [strLeB] at h1
      | cons b bs =>
          cases cs with
          | nil => simp [strLeB] at h2
          | cons c cs =>
              rcases Nat.lt_trichotomy a.val.toNat b.val.toNat with hab | hab | hab
              · rcases Nat.lt_trichotomy b.val.toNat c.val.toNat with hbc | hbc | hbc
                · simp [strLeB, Nat.lt_trans hab hbc]
                · simp [strLeB, hbc ▸ hab]
                · simp [strLeB, hbc, Nat.lt_asymm hbc] at h2
              · rcases Nat.lt_trichotomy b.val.toNat c.val.toNat with hbc | hbc | hbc
                · simp [strLeB, hab ▸ hbc]
                · simp only [strLeB, Nat.lt_irrefl, hab, hbc, if_neg, if_false,
                    Nat.lt_irrefl] at h1 h2 ⊢
                  exact ih bs cs h1 h2
                · simp [strLeB, hbc, Nat.lt_asymm hbc] at h2
              · simp [strLeB, hab, Nat.lt_asymm hab] at h1

/-- Inserting keeps the list a permutation. -/
theorem insertByName_perm (w : AttributeWrapper) (l : List AttributeWrapper) :
    (insertByName w l).Perm (w :: l) := by
  induction l with
  | nil => rfl
  | cons x xs ih =>
      by_cases h : strLe w.name x.name
      · simp [insertByName, h]
      · simp only [insertByName, h, if_neg, if_false]
        exact (ih.cons x).trans (List.Perm.swap w x xs)

/-- Inserting into a name-sorted list keeps it name-sorted. -/
theorem insertByName_pairwise (w : AttributeWrapper) (l : List AttributeWrapper)
    (hl : l.Pairwise fun a b => strLe a.name b.name = true) :
    (insertByName w l).Pairwise fun a b => strLe a.name b.name = true := by
  induction l with
  | nil => simp [insertByName]
  | cons x xs ih =>
      rcases List.pairwise_cons.mp hl with ⟨hx, hxs⟩
      by_cases h : strLe w.name x.name = true
      · rw [show insertByName w (x :: xs) = w :: x :: xs from by simp [insertByName, h]]
        refine List.pairwise_cons.mpr ⟨?_, hl⟩
        intro y hy
        rcases List.mem_cons.mp hy with rfl | hy
        · exact h
        · exact strLeB_trans _ _ _ h (hx y hy)
      · have hxw : strLe x.name w.name = true := by
          rcases strLeB_total w.name.data x.name.data with ht | ht
          · exact absurd ht h
          · exact ht
        rw [show insertByName w (x :: xs) = x :: insertByName w xs from by
          simp [insertByName, h]]
        refine List.pairwise_cons.mpr ⟨?_, ih hxs⟩
        intro y hy
        rcases List.mem_cons.mp ((insertByName_perm w xs).mem_iff.mp hy) with rfl | hy
        · exact hxw
        · exact hx y hy

/-- `sortByName` permutes its input. -/
theorem sortByName_perm (l : List AttributeWrapper) : (sortByName l).Perm l := by
  induction l with
  | nil => rfl
  | cons x xs ih => exact (insertByName_perm x (sortByName xs)).trans (ih.cons x)

/-- `sortByName` sorts by name ascending. -/
theorem sortByName_pairwise (l : List AttributeWrapper) :
    (sortByName l).Pairwise fun a b => strLe a.name b.name = true := by
  induction l with
  | nil => exact List.Pairwise.nil
  | cons x xs ih => exact insertByName_pairwise x (sortByName xs) ih

/-- C1: for every attribute set and every option set in which the include
list is non-empty and passes validation (its elements are wrappers, and —
since supplying a non-empty exclude list alongside it would raise the
conflicting-filter error — the exclude list is empty), `get_attrs` returns
exactly the include list, element for element in the given order, for every
value of the `pk` option and of the other options; the primary-key and
raw-foreign-key ignore rules are not applied. -/
theorem c1_include_precedence (fs : FieldSet) (opts : Opts)
    (hne : opts.includeL.getD [] ≠ [])
    (hval : validateColumns (opts.includeL.getD []) = true)
    (hexcl : opts.excludeL.getD [] = [])
    (hopt : validateColumns (opts.optionsL.getD []) = true) :
    fs.get_attrs opts = .ok (extractWrappers (opts.includeL.getD [])) := by
  have hnil : validateColumns [] = true := rfl
  simp [FieldSet.get_attrs, hne, hval, hexcl, hopt, hnil, optionsSubst_id]

/-- C2: with an empty include list (and well-typed exclude/options lists),
`get_attrs` returns the full wrapper set sorted by name ascending, minus the
excluded wrappers, minus the primary-key wrappers exactly when `pk` is false,
and minus the raw-foreign-key wrappers unconditionally; the sorted base list
is a permutation of the owned wrappers and the result is sorted by name.
Being an equation of a pure function, the result is the same on every
repeated call with the same input. -/
theorem c2_default_selection (fs : FieldSet) (opts : Opts)
    (hinc : opts.includeL.getD [] = [])
    (hexc : validateColumns (opts.excludeL.getD []) = true)
    (hopt : validateColumns (opts.optionsL.getD []) = true) :
    fs.get_attrs opts = .ok (fs.raw_attrs.filter fun w =>
        decide (w ∉ extractWrappers (opts.excludeL.getD []))
          && (opts.pk.getD true || !w.column.primary_key)
          && !w.is_raw_foreign_key) ∧
      fs.raw_attrs.Perm fs.wrappers ∧
      (fs.raw_attrs.filter fun w =>
        decide (w ∉ extractWrappers (opts.excludeL.getD []))
          && (opts.pk.getD true || !w.column.primary_key)
          && !w.is_raw_foreign_key).Pairwise (fun a b => strLe a.name b.name = true) := by
  refine ⟨?_, sortByName_perm _, ?_⟩
  · simp only [FieldSet.get_attrs, hinc, hexc, hopt]
    simp [validateColumns, optionsSubst_id]
    apply List.filter_congr
    intro a ha
    have hfk : (a ∈ fs.raw_attrs.filter fun w => w.is_raw_foreign_key)
        ↔ a.is_raw_foreign_key = true := by
      simp [List.mem_filter, ha]
    have hdef : (a ∈ fs.get_attrs_default) ↔ ¬ a.is_raw_foreign_key = true := by
      simp [FieldSet.get_attrs_default, List.mem_filter, ha, hfk]
    have hpks : (a ∈ fs.get_pks)
        ↔ (¬ a.is_raw_foreign_key = true ∧ a.column.primary_key = true) := by
      simp [FieldSet.get_pks, List.mem_filter, hdef, and_comm]
    cases hpk : opts.pk.getD true <;>
      by_cases hfk2 : a.is_raw_foreign_key = true <;>
        by_cases hp : a.column.primary_key = true <;>
          by_cases hex : a ∈ extractWrappers (opts.excludeL.getD []) <;>
            simp [hfk, hpks, hfk2, hp, hex, ha]
  · exact (sortByName_pairwise fs.wrappers).sublist (List.filter_sublist _)

/-- C5: supplying both a non-empty include list and a non-empty exclude list
(in the merged option set) makes `get_attrs` — and hence `FieldSet.render` —
fail with the conflicting-filter error before any selection or rendering is
done; the render call returns the error and no partial output. -/
theorem c5_conflicting_filters (fs : FieldSet) (callOpts : Opts)
    (hi : (fs.effOpts callOpts).includeL.getD [] ≠ [])
    (he : (fs.effOpts callOpts).excludeL.getD [] ≠ []) :
    fs.get_attrs (fs.effOpts callOpts) = .error .conflictingFilter ∧
      fs.render callOpts = .error .conflictingFilter := by
  have h1 : fs.get_attrs (fs.effOpts callOpts) = .error .conflictingFilter := by
    simp [FieldSet.get_attrs, hi, he]
  exact ⟨h1, by simp [FieldSet.render, h1]⟩

/-- C8 (amended): provided the conflicting-filter check does not fire first
(include and exclude are not both non-empty), a non-wrapper value in the
include, exclude or options list makes `get_attrs` fail with the
invalid-filter-type error naming the offending parameter — the first invalid
one in the order include, exclude, options — and carrying the string
representation of the offending parameter's value. -/
theorem c8_invalid_filter_type (fs : FieldSet) (opts : Opts)
    (hcf : ¬ (opts.includeL.getD [] ≠ [] ∧ opts.excludeL.getD [] ≠ [])) :
    (validateColumns (opts.includeL.getD []) = false →
        fs.get_attrs opts
          = .error (.invalidFilterType "include" (reprFilterList (opts.includeL.getD [])))) ∧
      (validateColumns (opts.includeL.getD []) = true →
        validateColumns (opts.excludeL.getD []) = false →
        fs.get_attrs opts
          = .error (.invalidFilterType "exclude" (reprFilterList (opts.excludeL.getD [])))) ∧
      (validateColumns (opts.includeL.getD []) = true →
        validateColumns (opts.excludeL.getD []) = true →
        validateColumns (opts.optionsL.getD []) = false →
        fs.get_attrs opts
          = .error (.invalidFilterType "options" (reprFilterList (opts.optionsL.getD [])))) := by
  refine ⟨fun h1 => ?_, fun h1 h2 => ?_, fun h1 h2 h3 => ?_⟩ <;>
    simp_all [FieldSet.get_attrs]

/-- C4: a wrapper whose render kind is hidden is rendered as exactly its
input fragment — no label, no error span, no doc span, no wrapping container
and no focus script — whatever the `make_label`, `error`, `doc` and `focus`
options and the renderer flags are; the `_focus_rendered` flag is left
unchanged. -/
theorem c4_hidden_renders_input_only (w : AttributeWrapper) (ml flag : Bool)
    (opts : Opts) (h : w.render_as = RenderKind.hidden) :
    Field.render w ml flag opts = (w.inputHtml, flag) := by
  simp [Field.render, h]

/-- C9: a non-hidden field renders as the newline-join of its ordered parts
(wrapped according to the instance flag, with the conditional focus script
after): the error span — with the error CSS class and the mapped message —
is one of the parts exactly when the wrapper's column is a key of the
`error` option map, the doc span likewise for the `doc` map, and each span
comes after the input fragment in the fixed label/input/error/doc order. -/
theorem c9_error_and_doc_spans (w : AttributeWrapper) (ml flag : Bool) (opts : Opts)
    (h : ¬ w.render_as = RenderKind.hidden) :
    (Field.render w ml flag opts).1 =
      wrapIf ml (joinNL (fieldParts w (opts.make_label.getD ml) opts))
        ++ focusSuffix w opts flag := by
  rw [Field.render_eq w ml flag opts h]
  cases hml : opts.make_label.getD ml <;>
    cases he : lookupCol (opts.error.getD []) w.column <;>
      cases hd : lookupCol (opts.doc.getD []) w.column <;>
        simp [fieldCore, fieldParts, joinNL, errSuffix, docSuffix, hml, he, hd,
          String.append_assoc, String.append_empty]

/-- The `_focus_rendered` flag after one `Field.render` call: the old flag
or-ed with the focus condition, except that hidden fields return before the
focus code and leave the flag unchanged. -/
theorem Field.render_flag (w : AttributeWrapper) (ml flag : Bool) (opts : Opts) :
    (Field.render w ml flag opts).2 =
      (flag || (!decide (w.render_as = RenderKind.hidden)
        && focusMatches (opts.focus.getD (.fBool true)) w.column)) := by
  by_cases h : w.render_as = RenderKind.hidden
  · simp [Field.render, h]
  · rw [Field.render_eq w ml flag opts h]
    simp [h]

/-- Once the `_focus_rendered` flag is set, no later field of the pass
appends a focus script. -/
theorem focusFlags_true (opts : Opts) (ml : Bool) (attrs : List AttributeWrapper) :
    focusFlags opts ml attrs true = attrs.map fun _ => false := by
  induction attrs with
  | nil => rfl
  | cons a rest ih =>
      simp [focusFlags, Field.render_flag, ih]

/-- `markFirst` keeps at most one `true`. -/
theorem markFirst_count_le_one (l : List Bool) : (markFirst l).count true ≤ 1 := by
  induction l with
  | nil => simp [markFirst]
  | cons b rest ih =>
      by_cases hb : b = true
      · simp [markFirst, hb, List.count_cons]
        rw [List.count_eq_zero_of_not_mem]
        simp
      · simp [markFirst, hb, List.count_cons, ih]

/-- C3 (amended): in one full `FieldSet.render` call the fragments come from
the focus-threading loop started with a fresh `_focus_rendered = false` flag,
and the loop appends the focus script exactly on the first selected
*non-hidden* field satisfying the focus condition (the focus option equals
that wrapper's column, or is boolean true) — hence on at most one field.
Hidden fields satisfying the condition are skipped (they return before the
focus code runs), which is the one divergence from the claim as stated. -/
theorem c3_focus_once_first_match (fs : FieldSet) (callOpts : Opts)
    (attrs : List AttributeWrapper)
    (h : fs.get_attrs (fs.effOpts callOpts) = .ok attrs) :
    fs.render callOpts =
        .ok (String.intercalate "\n" (renderLoop (fs.effOpts callOpts) true attrs false).1) ∧
      focusFlags (fs.effOpts callOpts) true attrs false =
        markFirst (attrs.map fun w =>
          !decide (w.render_as = RenderKind.hidden)
            && focusMatches ((fs.effOpts callOpts).focus.getD (.fBool true)) w.column) ∧
      (focusFlags (fs.effOpts callOpts) true attrs false).count true ≤ 1 := by
  have hmf : focusFlags (fs.effOpts callOpts) true attrs false =
      markFirst (attrs.map fun w =>
        !decide (w.render_as = RenderKind.hidden)
          && focusMatches ((fs.effOpts callOpts).focus.getD (.fBool true)) w.column) := by
    clear h
    generalize fs.effOpts callOpts = opts
    induction attrs with
    | nil => rfl
    | cons a rest ih =>
        by_cases ha : (!decide (a.render_as = RenderKind.hidden)
            && focusMatches (opts.focus.getD (.fBool true)) a.column) = true
        · simp [focusFlags, markFirst, Field.render_flag, ha, focusFlags_true]
        · simp only [Bool.not_eq_true] at ha
          simp [focusFlags, markFirst, Field.render_flag, ha, ih]
  refine ⟨by simp [FieldSet.render, h], hmf, ?_⟩
  rw [hmf]
  exact markFirst_count_le_one _

/-- C7 (amended): `bind(model, session)` updates the fieldset's own model and
session and every owned wrapper's bound-model reference, in place — no
wrapper is created, discarded or reordered, and every other wrapper field
(name, column, render kind, configured renderer, and in particular the
wrapper's session reference, which `forms.py:70-73` does not touch) is left
unchanged. -/
theorem c7_bind_updates_wrappers (fs : FieldSet) (m : Nat) (s : Option Nat) :
    (fs.bind m s).model = m ∧ (fs.bind m s).session = s ∧
      (fs.bind m s).wrappers.length = fs.wrappers.length ∧
      ∀ (i : Nat) (w : AttributeWrapper), fs.wrappers[i]? = some w →
        (fs.bind m s).wrappers[i]? = some { w with model := m } := by
  refine ⟨rfl, rfl, by simp [FieldSet.bind], ?_⟩
  intro i w hw
  simp [FieldSet.bind, List.getElem?_map, hw]

/-- C10: two successive `FieldSet.render` calls on the same fieldset with the
same options return identical strings — each call constructs a fresh `Field`
renderer (`forms.py:147`) whose `_focus_rendered` flag starts false
(`forms.py:168`), so the focus script is computed anew every call; by
contrast a renderer whose flag were already set would emit no focus script at
all (second conjunct), so the re-emission is exactly the effect of the fresh
per-call flag. -/
theorem c10_render_is_repeatable (fs : FieldSet) (callOpts : Opts) (s1 s2 : String)
    (h : fs.renderTwice callOpts = .ok (s1, s2)) :
    s1 = s2 ∧ ∀ attrs : List AttributeWrapper,
      focusFlags (fs.effOpts callOpts) true attrs true = attrs.map fun _ => false := by
  refine ⟨?_, fun attrs => focusFlags_true (fs.effOpts callOpts) true attrs⟩
  simp only [FieldSet.renderTwice] at h
  cases hr : fs.render callOpts <;> rw [hr] at h <;> simp at h
  exact h.1.symm.trans h.2

/-- Witness for C1 at a concrete input. -/
theorem c1_witness :
    validateColumns [FilterItem.wrapper wC1] = true ∧
      fsC1.get_attrs optsC1 = .ok [wC1] := by
  refine ⟨rfl, ?_⟩
  have h := c1_include_precedence fsC1 optsC1 (by decide) rfl rfl rfl
  simpa [optsC1, extractWrappers] using h

/-- Witness for C2 at a concrete input (the spec's own example: `id` primary
key, `name` non-null, `bio` nullable, `secret_id` raw foreign key, rendered
with `pk=False` selects `bio` then `name`). -/
theorem c2_witness :
    optsC2.includeL.getD [] = [] ∧ fsC2.get_attrs optsC2 = .ok [wBio, wName] := by
  refine ⟨rfl, ?_⟩
  have h := (c2_default_selection fsC2 optsC2 rfl rfl rfl).1
  exact h.trans (congrArg Except.ok (by decide))

/-- Counterexample to C3 as stated: with `focus` defaulting to boolean true,
the first selected field (`wHid`) satisfies the claim's focus criterion, yet
the focus script is appended to the second field — hidden fields return
before the focus code, so the script lands on the first *non-hidden*
matching field. -/
theorem c3_counterexample :
    fsC3.get_attrs (fsC3.effOpts optsC3) = .ok [wHid, wTxt] ∧
      focusMatches ((fsC3.effOpts optsC3).focus.getD (.fBool true)) wHid.column = true ∧
      focusFlags (fsC3.effOpts optsC3) true [wHid, wTxt] false = [false, true] ∧
      (renderLoop (fsC3.effOpts optsC3) true [wHid, wTxt] false).1 =
        ["<input type=\"hidden\" id=\"token\" />",
          "<div>\n<label class=\"field_opt\">zname</label>\n<input id=\"zname\" />\n</div>\n<script type=\"text/javascript\">document.getElementById(\"zname\").focus();</script>"] := by
  exact ⟨rfl, rfl, rfl, rfl⟩

/-- Witness for the amended C3 at a concrete input. -/
theorem c3_witness :
    focusFlags (fsC3.effOpts optsC3) true [wHid, wTxt] false =
        markFirst ([wHid, wTxt].map fun w =>
          !decide (w.render_as = RenderKind.hidden)
            && focusMatches ((fsC3.effOpts optsC3).focus.getD (.fBool true)) w.column) ∧
      (focusFlags (fsC3.effOpts optsC3) true [wHid, wTxt] false).count true ≤ 1 := by
  have h := c3_focus_once_first_match fsC3 optsC3 [wHid, wTxt] rfl
  exact ⟨h.2.1, h.2.2⟩

/-- Witness for C4 at a concrete input: even with label, error, doc and focus
options all supplied, the hidden wrapper renders as its bare input fragment
and leaves the focus flag unset. -/
theorem c4_witness :
    Field.render wC4 true false optsC4 = ("<input type=\"hidden\" id=\"secret\" />", false) := by
  have h := c4_hidden_renders_input_only wC4 true false optsC4 rfl
  simpa [wC4] using h

/-- Witness for C5 at a concrete input. -/
theorem c5_witness :
    (fsC5.effOpts optsC5).includeL.getD [] ≠ [] ∧
      fsC5.get_attrs (fsC5.effOpts optsC5) = .error .conflictingFilter ∧
      fsC5.render optsC5 = .error .conflictingFilter := by
  have h := c5_conflicting_filters fsC5 optsC5 (by decide) (by decide)
  exact ⟨by decide, h.1, h.2⟩

/-- Counterexample to C6 as stated: the effective `make_label` (call-time
override `false` winning over the instance flag `true`) suppresses the label,
yet the output is still wrapped in the div container, because the wrapping
test at `forms.py:233` reads the instance flag, not the merged option. -/
theorem c6_counterexample :
    optsC6.make_label = some false ∧
      (Field.render wC6 true false optsC6).1 = "<div>\n<input id=\"bio\" />\n</div>" ∧
      (Field.render wC6 true false optsC6).1 ≠ wC6.inputHtml := by
  refine ⟨rfl, rfl, ?_⟩
  decide

/-- Witness for the amended C6 at a concrete input. -/
theorem c6_witness :
    optsC6.make_label.getD true = false ∧
      (Field.render wC6 true false optsC6).1 =
        wrapIf true (wC6.inputHtml ++ errSuffix wC6 optsC6 ++ docSuffix wC6 optsC6)
          ++ focusSuffix wC6 optsC6 false :=
  ⟨rfl, (c6_label_and_wrapping wC6 true false optsC6 (by decide)).2 rfl⟩

/-- Counterexample to C7 as stated: binding to a new model and session leaves
the wrapper's session reference at its old value (`forms.py:72-73` assigns
only `attr.model`), so the claim's "updates every owned AttributeWrapper's
... session reference to the new values" fails. -/
theorem c7_counterexample :
    ((fsC7.bind 5 (some 2)).wrappers.map AttributeWrapper.session) = [some 1] ∧
      some 1 ≠ (some 2 : Option Nat) := by
  refine ⟨rfl, ?_⟩
  decide

/-- Witness for the amended C7 at a concrete input. -/
theorem c7_witness :
    (fsC7.bind 5 (some 2)).wrappers[0]? = some { wC7 with model := 5 } :=
  (c7_bind_updates_wrappers fsC7 5 (some 2)).2.2.2 0 wC7 rfl

/-- Counterexample to C8 as stated: when both lists are non-empty and contain
non-wrapper values, the conflicting-filter check at `forms.py:108` fires
before the type validation, so the raised error is the conflicting-filter
one, not the invalid-filter-type one the claim requires. -/
theorem c8_counterexample :
    fsC8.get_attrs optsC8bad = .error .conflictingFilter ∧
      FormError.conflictingFilter
        ≠ .invalidFilterType "include" (reprFilterList [.other "1"]) := by
  refine ⟨rfl, ?_⟩
  decide

/-- Witness for the amended C8 at a concrete input. -/
theorem c8_witness :
    fsC8.get_attrs optsC8w
      = .error (.invalidFilterType "options" (reprFilterList (optsC8w.optionsL.getD []))) :=
  (c8_invalid_filter_type fsC8 optsC8w (by decide)).2.2 rfl rfl rfl

/-- Witness for C9 at a concrete input: the column is a key of the `error`
map, so the error span appears right after the input; it is absent from the
`doc` map, so no doc span appears. -/
theorem c9_witness :
    (Field.render wC9 true false optsC9).1 =
        wrapIf true (joinNL (fieldParts wC9 (optsC9.make_label.getD true) optsC9))
          ++ focusSuffix wC9 optsC9 false ∧
      (Field.render wC9 true false optsC9).1 =
        "<div>\n<label class=\"field_req\">age</label>\n<input id=\"age\" />\n<span class=\"span_err\">required</span>\n</div>" :=
  ⟨c9_error_and_doc_spans wC9 true false optsC9 (by decide), rfl⟩

/-- Witness for C10 at a concrete input: both successive renders produce the
same markup, focus script included, and a pass whose flag were already set
would emit no focus marks. -/
theorem c10_witness :
    fsC10.renderTwice optsC10 = .ok (outC10, outC10) ∧
      focusFlags (fsC10.effOpts optsC10) true [wC10] true = [false] := by
  have hr : fsC10.renderTwice optsC10 = .ok (outC10, outC10) := rfl
  have h := c10_render_is_repeatable fsC10 optsC10 outC10 outC10 hr
  exact ⟨hr, by simpa using h.2 [wC10]⟩
